import Mathlib

/-!
Shallow embedding of the resilience/caching core of the repository
(`circuit_breaker.py`, `rate_limiter.py`, `cache_manager.py`, `metrics.py`,
`utils.py` RetryUtils) together with theorems settling the specification
claims.  Every clock read appearing in the source becomes an explicit
parameter.  Timestamps (Python `time.time()` floats) and window/timeout
durations are carried as integers: exact arithmetic over the instants the
claims quantify over (none of the compared quantities depends on fractional
seconds); quantities the source divides or scales (`error_rate`, retry
delays) are carried as rationals.
-/

/-- Model of a Python runtime value, as far as the cache layer inspects it:
the primitives recognised by `_safe_serialize`, lists/tuples/sets, string-keyed
dicts, and an opaque object carrying the text of its `repr`. -/
inductive PyVal : Type
  | none
  | bool (b : Bool)
  | int (n : Int)
  | str (s : String)
  | list (xs : List PyVal)
  | dict (kvs : List (String × PyVal))
  | obj (reprText : String)

/-- Relevant fields of `config.Config` with their default values
(`config.py` lines 95-107). -/
structure Config where
  CACHE_TTL : Int := 3600
  RATE_LIMIT_REQUESTS : Nat := 100
  RATE_LIMIT_WINDOW : Int := 3600
  HEALTH_CHECK_INTERVAL : Int := 300
  CIRCUIT_BREAKER_THRESHOLD : Nat := 5

/-- The module-level `config` singleton. -/
def config : Config := {}

/-- Python `x or d` for an optional integer `x`: both `None` and `0` are
falsy, so they select the default `d`. -/
def pyOrInt (x : Option Int) (d : Int) : Int :=
  match x with
  | .none => d
  | .some v => if v = 0 then d else v

/-- Python `x or d` for an optional natural number. -/
def pyOrNat (x : Option Nat) (d : Nat) : Nat :=
  match x with
  | .none => d
  | .some v => if v = 0 then d else v


/-! ## Rate limiter (`rate_limiter.py`)

The limiter keeps a deque of admitted-request timestamps per key; all claims
concern a single key, so we carry one deque (oldest first). -/

/-- State of a `RateLimiter` for one key. -/
structure RateLimiter where
  max_requests : Nat
  window_seconds : Int
  requests : List Int
deriving DecidableEq, Repr

/-- `RateLimiter.__init__` (lines 59-64): truthiness fallback to config for
both numeric parameters, empty window. -/
def RateLimiter.init (max_requests : Option Nat) (window_seconds : Option Int) :
    RateLimiter :=
  { max_requests := pyOrNat max_requests config.RATE_LIMIT_REQUESTS
    window_seconds := pyOrInt window_seconds config.RATE_LIMIT_WINDOW
    requests := [] }

/-- The pruning loop of `is_allowed` (lines 93-95):
`while requests and requests[0] <= now - self.window_seconds: popleft()`. -/
def pruneWindow (window now : Int) : List Int → List Int
  | [] => []
  | t :: rest => if t ≤ now - window then pruneWindow window now rest else t :: rest

/-- `RateLimiter.is_allowed` (lines 66-102) at clock reading `now`: prune,
then admit (recording `now`) iff the remaining count is under the limit. -/
def RateLimiter.is_allowed (rl : RateLimiter) (now : Int) : RateLimiter × Bool :=
  let reqs := pruneWindow rl.window_seconds now rl.requests
  if reqs.length < rl.max_requests then
    ({ rl with requests := reqs ++ [now] }, true)
  else
    ({ rl with requests := reqs }, false)

/-! ## Circuit breaker (`circuit_breaker.py`) -/

/-- `CircuitState` enum. -/
inductive CircuitState : Type
  | closed
  | opened
  | halfOpen
deriving DecidableEq, Repr

/-- State of a `CircuitBreaker`.  `lastFailureTime`/`stateVar` embed the
source's `_last_failure_time`/`_state` attributes. -/
structure CircuitBreaker where
  failure_threshold : Nat
  recovery_timeout : Int
  failureCount : Nat
  lastFailureTime : Option Int
  stateVar : CircuitState
deriving DecidableEq, Repr

/-- `CircuitBreaker.__init__` (lines 77-84): truthiness fallback to config,
zero failures, no failure time, CLOSED. -/
def CircuitBreaker.init (failure_threshold : Option Nat)
    (recovery_timeout : Option Int) : CircuitBreaker :=
  { failure_threshold := pyOrNat failure_threshold config.CIRCUIT_BREAKER_THRESHOLD
    recovery_timeout := pyOrInt recovery_timeout config.HEALTH_CHECK_INTERVAL
    failureCount := 0
    lastFailureTime := none
    stateVar := .closed }

/-- The mutation performed by the `state` property (lines 96-99): when OPEN,
`if self._last_failure_time and time.time() - self._last_failure_time >=
self.recovery_timeout` move to HALF_OPEN.  `_last_failure_time` is an
optional float, so the truthiness test also rejects the timestamp `0.0`. -/
def CircuitBreaker.stateStep (cb : CircuitBreaker) (now : Int) : CircuitBreaker :=
  match cb.stateVar, cb.lastFailureTime with
  | .opened, some t =>
      if t ≠ 0 ∧ now - t ≥ cb.recovery_timeout then
        { cb with stateVar := .halfOpen }
      else cb
  | _, _ => cb

/-- The `state` property (lines 86-100): performs the lazy OPEN→HALF_OPEN
transition, then reports the stored state. -/
def CircuitBreaker.state (cb : CircuitBreaker) (now : Int) :
    CircuitBreaker × CircuitState :=
  let cb := cb.stateStep now
  (cb, cb.stateVar)

/-- `CircuitBreaker._on_success` (lines 140-150). -/
def CircuitBreaker.onSuccess (cb : CircuitBreaker) : CircuitBreaker :=
  let cb := { cb with failureCount := 0 }
  if cb.stateVar = .halfOpen then { cb with stateVar := .closed } else cb

/-- `CircuitBreaker._on_failure` (lines 152-167) at clock reading `now`. -/
def CircuitBreaker.onFailure (cb : CircuitBreaker) (now : Int) : CircuitBreaker :=
  let cb := { cb with
    failureCount := cb.failureCount + 1
    lastFailureTime := some now }
  if cb.failureCount ≥ cb.failure_threshold then
    { cb with stateVar := .opened }
  else cb

/-- Outcome of `CircuitBreaker.call` as seen by the caller. -/
inductive CallResult : Type
  | serviceUnavailable
  | ok (v : PyVal)
  | err

/-- `CircuitBreaker.call` (lines 102-138) at clock reading `now`.  The wrapped
operation's behaviour is supplied as `op` (`Except.error` = it raises).  The
returned `Bool` records whether the operation was invoked. -/
def CircuitBreaker.call (cb : CircuitBreaker) (now : Int)
    (op : Except Unit PyVal) : CircuitBreaker × CallResult × Bool :=
  let (cb, st) := cb.state now
  if st = .opened then
    (cb, .serviceUnavailable, false)
  else
    match op with
    | .ok v => (cb.onSuccess, .ok v, true)
    | .error _ => (cb.onFailure now, .err, true)

/-! ## Metrics (`metrics.py`)

`MetricsCollector` delegates the per-call accounting to its `MetricsData`
dataclass; the Prometheus branch is gated on
`PROMETHEUS_AVAILABLE and config.ENABLE_METRICS`, which we carry as the
boolean `metricsEnabled` (the repository default is `ENABLE_METRICS=false`). -/

/-- The `MetricsData` dataclass (lines 22-33); default values give the
freshly-constructed / reset collector. -/
structure MetricsData where
  api_calls : Nat := 0
  api_errors : Nat := 0
  cache_hits : Nat := 0
  cache_misses : Nat := 0
  total_processing_time : ℚ := 0
  image_generation_count : Nat := 0
  image_generation_errors : Nat := 0
  llm_calls : Nat := 0
  llm_errors : Nat := 0
deriving DecidableEq, Repr

/-- `MetricsData.error_rate` (lines 52-57): total errors over total
operations, `0.0` when no operations were recorded. -/
def MetricsData.error_rate (m : MetricsData) : ℚ :=
  let total := m.api_calls + m.llm_calls + m.image_generation_count
  let errors := m.api_errors + m.llm_errors + m.image_generation_errors
  if total > 0 then (errors : ℚ) / (total : ℚ) else 0

/-- `MetricsCollector.record_api_call` (lines 133-147): `api_calls` is always
incremented, but the `api_errors` increment sits inside the
`if PROMETHEUS_AVAILABLE and config.ENABLE_METRICS:` block, mirrored by
`metricsEnabled`. -/
def MetricsData.record_api_call (m : MetricsData) (metricsEnabled : Bool)
    (error : Option String) : MetricsData :=
  let m := { m with api_calls := m.api_calls + 1 }
  if metricsEnabled then
    match error with
    | some _ => { m with api_errors := m.api_errors + 1 }
    | Option.none => m
  else m

/-- `MetricsCollector.reset_metrics` (lines 200-203): replaces the metrics
with a fresh `MetricsData()`. -/
def MetricsData.reset : MetricsData := {}

/-- Iterate `record_api_call` `n` times with the same arguments. -/
def MetricsData.recordApiCalls (m : MetricsData) (metricsEnabled : Bool)
    (error : Option String) : Nat → MetricsData
  | 0 => m
  | n + 1 => (m.recordApiCalls metricsEnabled error n).record_api_call metricsEnabled error

/-! ## Retry with backoff (`utils.py`, `RetryUtils.retry`, lines 367-391)

The wrapped operation is modelled as a map from attempt index to outcome
(`Except.error` = that invocation raises).  The result records how many times
the operation was invoked, the sequence of sleeps performed (in seconds, in
order), and the final outcome — `Except.error (some e)` meaning exception `e`
is re-raised, `Except.error Option.none` meaning the degenerate
`raise None` reached when `max_attempts = 0`. -/

/-- Observable outcome of a run of the retry wrapper. -/
structure RetryOutcome (ε α : Type) where
  invocations : Nat
  sleeps : List ℚ
  result : Except (Option ε) α

/-- The `for attempt in range(max_attempts)` loop, structured on the number of
remaining iterations; `attempt < max_attempts - 1` holds iff more than one
iteration remains. -/
def retryLoop (op : Nat → Except ε α) (backoff : ℚ) :
    Nat → Nat → ℚ → Option ε → RetryOutcome ε α
  | 0, _, _, last => ⟨0, [], .error last⟩
  | remaining + 1, attempt, delay, _ =>
    match op attempt with
    | .ok v => ⟨1, [], .ok v⟩
    | .error e =>
      if remaining > 0 then
        let rest := retryLoop op backoff remaining (attempt + 1) (delay * backoff) (some e)
        ⟨rest.invocations + 1, delay :: rest.sleeps, rest.result⟩
      else
        let rest := retryLoop op backoff remaining (attempt + 1) delay (some e)
        ⟨rest.invocations + 1, rest.sleeps, rest.result⟩

/-- `RetryUtils.retry(max_attempts, delay, backoff)` applied to `op`. -/
def retry (op : Nat → Except ε α) (max_attempts : Nat) (delay backoff : ℚ) :
    RetryOutcome ε α :=
  retryLoop op backoff max_attempts 0 delay none

/-! ## Cache manager (`cache_manager.py`)

The cache directory holds, per key, a `.cache` file (pickled value) and a
`.meta` file (JSON metadata).  We model the directory as two key-indexed maps
into `FileState`: a file can be missing, present but unreadable (raising on
`json.load`/`pickle.load`), or present with a parsed value.  The store is
generic in the key type: `CacheManager` callers use strings, while the
function-result decorator is keyed by the canonical key structure whose
digest the source hashes. -/

/-- State of one file of a cache entry. -/
inductive FileState (α : Type) : Type
  | missing
  | corrupt
  | good (v : α)
deriving DecidableEq, Repr

/-- The parsed `.meta` record written by `CacheManager.set`
(lines 129-133). -/
structure Metadata where
  created : Int
  ttl : Int
  expires : Int
deriving DecidableEq, Repr

/-- The cache directory: per key, the `.cache` payload file and the `.meta`
metadata file. -/
structure CacheFS (κ : Type) where
  data : κ → FileState PyVal
  meta : κ → FileState Metadata

/-- The empty cache directory. -/
def CacheFS.empty : CacheFS κ := ⟨fun _ => .missing, fun _ => .missing⟩

/-- `CacheManager.set` (lines 100-141) at the two clock readings it performs:
`t1` for the `created` field and `t2` for computing `expires` — the source
calls `time.time()` twice while building the metadata dict.  A `ttl` of
`None` or `0` falls back to `config.CACHE_TTL` (`ttl = ttl or
config.CACHE_TTL`).  Returns the updated directory and the metadata
written. -/
def CacheManager.set [DecidableEq κ] (fs : CacheFS κ) (key : κ) (value : PyVal)
    (ttl : Option Int) (t1 t2 : Int) : CacheFS κ × Metadata :=
  let ttl := pyOrInt ttl config.CACHE_TTL
  let metadata : Metadata := { created := t1, ttl := ttl, expires := t2 + ttl }
  ({ data := fun k => if k = key then .good value else fs.data k
     meta := fun k => if k = key then .good metadata else fs.meta k },
   metadata)

/-- `CacheManager.delete` (lines 194-208): removes both files. -/
def CacheManager.delete [DecidableEq κ] (fs : CacheFS κ) (key : κ) : CacheFS κ :=
  { data := fun k => if k = key then .missing else fs.data k
    meta := fun k => if k = key then .missing else fs.meta k }

/-- `CacheManager.get` (lines 143-192) at clock reading `now`.  Mirrors the
source's order: missing file ⇒ `None`; unreadable metadata ⇒ the exception is
caught, logged, `None` returned; expired (`now > expires`) ⇒ delete the entry
and return `None`; unreadable payload ⇒ caught, `None`; otherwise the stored
value.  A Python cache miss is the value `None`, i.e. `PyVal.none`. -/
def CacheManager.get [DecidableEq κ] (fs : CacheFS κ) (key : κ) (now : Int) :
    CacheFS κ × PyVal :=
  match fs.data key, fs.meta key with
  | .missing, _ => (fs, .none)
  | _, .missing => (fs, .none)
  | _, .corrupt => (fs, .none)
  | .corrupt, .good m =>
      if now > m.expires then (CacheManager.delete fs key, .none)
      else (fs, .none)
  | .good v, .good m =>
      if now > m.expires then (CacheManager.delete fs key, .none)
      else (fs, v)

/-- Python `value is not None` test on a runtime value (`None` is a
singleton, so the identity test coincides with this structural test). -/
def PyVal.isNone : PyVal → Bool
  | .none => true
  | _ => false

/-- `CacheManager.exists` (lines 210-212): `self.get(key) is not None`. -/
def CacheManager.exists [DecidableEq κ] (fs : CacheFS κ) (key : κ) (now : Int) :
    CacheFS κ × Bool :=
  let (fs, v) := CacheManager.get fs key now
  (fs, !(PyVal.isNone v))

/-! ## Function-result cache keys (`CachedFunction`, lines 277-336)

`_generate_cache_key` builds `key_data = {func, args, kwargs}` with arguments
reduced by `_safe_serialize`, kwargs sorted by name, serializes it with
`json.dumps(key_data, sort_keys=True)` and hashes with MD5.  The digest is a
deterministic function of the serialized string, so the key-equality claims
are settled at the level of the `key_data` structure and its rendering; the
store is keyed by the rendered string (two equal renderings give equal
digests). -/

/-- A JSON-serializable value as produced by `_safe_serialize`
(lines 285-296). -/
inductive SerVal : Type
  | none
  | bool (b : Bool)
  | int (n : Int)
  | str (s : String)
  | list (xs : List SerVal)
  | dict (kvs : List (String × SerVal))

mutual
/-- `CachedFunction._safe_serialize` (lines 285-296): primitives unchanged,
containers recursed into, any other object replaced by its `repr` text. -/
def PyVal.safeSerialize : PyVal → SerVal
  | .none => .none
  | .bool b => .bool b
  | .int n => .int n
  | .str s => .str s
  | .list xs => .list (PyVal.serializeList xs)
  | .dict kvs => .dict (PyVal.serializePairs kvs)
  | .obj r => .str r

/-- Pointwise `_safe_serialize` over the elements of a list/tuple/set. -/
def PyVal.serializeList : List PyVal → List SerVal
  | [] => []
  | x :: xs => x.safeSerialize :: PyVal.serializeList xs

/-- Pointwise `_safe_serialize` over the values of a string-keyed dict. -/
def PyVal.serializePairs : List (String × PyVal) → List (String × SerVal)
  | [] => []
  | (k, v) :: kvs => (k, v.safeSerialize) :: PyVal.serializePairs kvs
end

/-- Key order on keyword-argument pairs: Python's `sorted(kwargs.items())`
compares tuples, and dict keys are distinct, so the comparison is by key. -/
def kvLE (p q : String × α) : Prop := p.1 ≤ q.1

instance : @DecidableRel (String × α) (kvLE) :=
  fun p q => inferInstanceAs (Decidable (p.1 ≤ q.1))

instance : IsTotal (String × α) kvLE := ⟨fun a b => le_total a.1 b.1⟩

instance : IsTrans (String × α) kvLE := ⟨fun _ _ _ h h' => le_trans h h'⟩

/-- Strict version of `kvLE`, used to identify the two sorted kwarg lists. -/
def kvLT (p q : String × α) : Prop := p.1 < q.1

instance : IsAntisymm (String × α) kvLT :=
  ⟨fun _ _ h h' => absurd (lt_trans h h') (lt_irrefl _)⟩

/-- The canonical `key_data` structure of `_generate_cache_key`
(lines 304-311). -/
structure CacheKeyData where
  func : String
  args : List SerVal
  kwargs : List (String × SerVal)

/-- Lines 300-302: `if args_list and hasattr(args_list[0], "__class__"):
args_list = args_list[1:]`.  Every Python value has a `__class__` attribute,
so the guard reduces to non-emptiness and the head of any non-empty argument
list is dropped. -/
def dropSelfArg : List PyVal → List PyVal
  | [] => []
  | _ :: rest => rest

/-- `CachedFunction._generate_cache_key` (lines 298-313) up to serialization:
function name, serialized positional arguments after the first-argument drop,
and keyword arguments sorted by name then serialized. -/
def CachedFunction.generate_cache_key (func_name : String) (args : List PyVal)
    (kwargs : List (String × PyVal)) : CacheKeyData :=
  { func := func_name
    args := PyVal.serializeList (dropSelfArg args)
    kwargs := PyVal.serializePairs (List.insertionSort kvLE kwargs) }

mutual
/-- Rendering of a `SerVal` in the style of `json.dumps` (default
separators; string escaping not modelled — only determinism of the rendering
is used). -/
def SerVal.render : SerVal → String
  | .none => "null"
  | .bool b => if b then "true" else "false"
  | .int n => toString n
  | .str s => "\"" ++ s ++ "\""
  | .list xs => "[" ++ SerVal.renderList xs ++ "]"
  | .dict kvs => "\x7b" ++ SerVal.renderPairs kvs ++ "\x7d"

/-- Comma-separated rendering of array elements. -/
def SerVal.renderList : List SerVal → String
  | [] => ""
  | [x] => SerVal.render x
  | x :: y :: xs => SerVal.render x ++ ", " ++ SerVal.renderList (y :: xs)

/-- Comma-separated rendering of object members. -/
def SerVal.renderPairs : List (String × SerVal) → String
  | [] => ""
  | [(k, v)] => "\"" ++ k ++ "\": " ++ SerVal.render v
  | (k, v) :: kv :: kvs =>
      "\"" ++ k ++ "\": " ++ SerVal.render v ++ ", " ++ SerVal.renderPairs (kv :: kvs)
end

/-- The `key_string` of line 312: `json.dumps(key_data, sort_keys=True)` —
top-level keys in sorted order `args`, `func`, `kwargs`.  The cache key is
the MD5 hex digest of this string; the digest is a deterministic function of
it, so the store is modelled as keyed by this string. -/
def keyString (kd : CacheKeyData) : String :=
  "\x7b\"args\": [" ++ SerVal.renderList kd.args ++ "], \"func\": \"" ++ kd.func
    ++ "\", \"kwargs\": \x7b" ++ SerVal.renderPairs kd.kwargs ++ "\x7d\x7d"

/-- The `wrapper` closure of `CachedFunction.__call__` (lines 315-336) for a
wrapped function whose invocation would return `result`: compute the key,
try `get`; a non-`None` cached value is returned without invoking the
function; otherwise the function is invoked and its result stored with the
decorator's TTL (`self.ttl = ttl or config.CACHE_TTL`, line 281).  The
returned `Bool` records whether the wrapped function was invoked.  The
default empty `key_prefix` is elided. -/
def CachedFunction.callWrapper (fs : CacheFS String) (ttl : Option Int)
    (func_name : String) (args : List PyVal) (kwargs : List (String × PyVal))
    (result : PyVal) (now t1 t2 : Int) : CacheFS String × PyVal × Bool :=
  let selfTtl := pyOrInt ttl config.CACHE_TTL
  let key := keyString (CachedFunction.generate_cache_key func_name args kwargs)
  let (fs, cached) := CacheManager.get fs key now
  if cached.isNone then
    let (fs, _) := CacheManager.set fs key result (some selfTtl) t1 t2
    (fs, result, true)
  else
    (fs, cached, false)

/-! ## Theorems settling the claims -/

/-- Limiter state after one admitted call at `t` on a fresh
`RateLimiter(max_requests=3, window_seconds=5)`. -/
def rlS1 (t : Int) : RateLimiter := ((RateLimiter.init (some 3) (some 5)).is_allowed t).1

/-- Limiter state after two calls at `t`. -/
def rlS2 (t : Int) : RateLimiter := ((rlS1 t).is_allowed t).1

/-- Limiter state after three calls at `t`. -/
def rlS3 (t : Int) : RateLimiter := ((rlS2 t).is_allowed t).1

/-- Limiter state after four calls at `t` (the fourth is rejected). -/
def rlS4 (t : Int) : RateLimiter := ((rlS3 t).is_allowed t).1

/-- C3: with `max_requests=3, window_seconds=5`, three immediate calls to
`is_allowed` at instant `t` all return true, the fourth returns false and
records no timestamp, and a call more than 5 seconds later is admitted
again; a timestamp exactly at `now - window_seconds` counts as expired and
is pruned. -/
theorem rate_limiter_boundary_behavior (t t' w n0 : Int) (rest : List Int)
    (h : t + 5 < t') :
    ((RateLimiter.init (some 3) (some 5)).is_allowed t).2 = true
    ∧ ((rlS1 t).is_allowed t).2 = true
    ∧ ((rlS2 t).is_allowed t).2 = true
    ∧ ((rlS3 t).is_allowed t).2 = false
    ∧ (rlS4 t).requests = (rlS3 t).requests
    ∧ ((rlS4 t).is_allowed t').2 = true
    ∧ pruneWindow w n0 ((n0 - w) :: rest) = pruneWindow w n0 rest := by
  have hkeep : ∀ rest : List Int, pruneWindow 5 t (t :: rest) = t :: rest := by
    intro rest
    have hc : ¬ (t ≤ t - 5) := by omega
    simp [pruneWindow, hc]
  have f1 : rlS1 t = ⟨3, 5, [t]⟩ := rfl
  have f2 : rlS2 t = ⟨3, 5, [t, t]⟩ := by
    simp [rlS2, f1, RateLimiter.is_allowed, hkeep]
  have f3 : rlS3 t = ⟨3, 5, [t, t, t]⟩ := by
    simp [rlS3, f2, RateLimiter.is_allowed, hkeep]
  have f4 : rlS4 t = ⟨3, 5, [t, t, t]⟩ := by
    simp [rlS4, f3, RateLimiter.is_allowed, hkeep]
  have hexp : pruneWindow 5 t' [t, t, t] = [] := by
    have hc : t ≤ t' - 5 := by omega
    simp [pruneWindow, hc]
  refine ⟨rfl, ?_, ?_, ?_, ?_, ?_, ?_⟩
  · simp [f1, RateLimiter.is_allowed, hkeep]
  · simp [f2, RateLimiter.is_allowed, hkeep]
  · simp [f3, RateLimiter.is_allowed, hkeep]
  · simp [f4, f3]
  · simp [f4, RateLimiter.is_allowed, hexp]
  · simp [pruneWindow]

/-- C3 witness: the scenario at `t = 0`, `t' = 6`. -/
theorem rate_limiter_boundary_behavior_witness :
    ((RateLimiter.init (some 3) (some 5)).is_allowed 0).2 = true
    ∧ ((rlS1 0).is_allowed 0).2 = true
    ∧ ((rlS2 0).is_allowed 0).2 = true
    ∧ ((rlS3 0).is_allowed 0).2 = false
    ∧ (rlS4 0).requests = (rlS3 0).requests
    ∧ ((rlS4 0).is_allowed 6).2 = true
    ∧ pruneWindow 5 9 ((9 - 5) :: [4, 9]) = pruneWindow 5 9 [4, 9] :=
  rate_limiter_boundary_behavior 0 6 5 9 [4, 9] (by decide)

/-- Breaker state after the first failing call at `t1` on a fresh
`CircuitBreaker(failure_threshold=2, recovery_timeout=T)`. -/
def cbS1 (T t1 : Int) : CircuitBreaker :=
  ((CircuitBreaker.init (some 2) (some T)).call t1 (.error ())).1

/-- Breaker state after a second consecutive failing call at `t2`. -/
def cbS2 (T t1 t2 : Int) : CircuitBreaker := ((cbS1 T t1).call t2 (.error ())).1

/-- C1: with `failure_threshold=2`, two consecutive failing calls move the
breaker CLOSED→OPEN; a call attempted while the effective state is OPEN
returns `ServiceUnavailableError` without invoking the operation (and any
breaker whose effective state is OPEN behaves so); once `recovery_timeout`
has elapsed since the last failure the state read returns HALF_OPEN, and a
successful call then returns the breaker to CLOSED with `failure_count`
0. -/
theorem circuit_breaker_lifecycle (T t1 t2 t3 t4 : Int)
    (op3 : Except Unit PyVal) (v : PyVal)
    (hT : 0 < T) (ht2 : t2 ≠ 0) (h3 : t3 - t2 < T) (h4 : T ≤ t4 - t2) :
    (CircuitBreaker.init (some 2) (some T)).stateVar = CircuitState.closed
    ∧ (cbS1 T t1).stateVar = CircuitState.closed
    ∧ (cbS1 T t1).failureCount = 1
    ∧ (cbS2 T t1 t2).stateVar = CircuitState.opened
    ∧ (cbS2 T t1 t2).call t3 op3 = (cbS2 T t1 t2, CallResult.serviceUnavailable, false)
    ∧ ((cbS2 T t1 t2).state t4).2 = CircuitState.halfOpen
    ∧ ((cbS2 T t1 t2).call t4 (.ok v)).1.stateVar = CircuitState.closed
    ∧ ((cbS2 T t1 t2).call t4 (.ok v)).1.failureCount = 0
    ∧ ((cbS2 T t1 t2).call t4 (.ok v)).2 = (CallResult.ok v, true) := by
  have hTT : pyOrInt (some T) config.HEALTH_CHECK_INTERVAL = T := if_neg (by omega)
  have e0 : CircuitBreaker.init (some 2) (some T)
      = ⟨2, T, 0, Option.none, .closed⟩ := by
    simp [CircuitBreaker.init, pyOrNat, hTT]
  have f1 : cbS1 T t1 = ⟨2, T, 1, some t1, .closed⟩ := by
    simp [cbS1, e0, CircuitBreaker.call, CircuitBreaker.state,
      CircuitBreaker.stateStep, CircuitBreaker.onFailure]
  have f2 : cbS2 T t1 t2 = ⟨2, T, 2, some t2, .opened⟩ := by
    simp [cbS2, f1, CircuitBreaker.call, CircuitBreaker.state,
      CircuitBreaker.stateStep, CircuitBreaker.onFailure]
  have hc3 : ¬ (t2 ≠ 0 ∧ t3 - t2 ≥ T) := by omega
  have hc4 : t2 ≠ 0 ∧ t4 - t2 ≥ T := ⟨ht2, by omega⟩
  have e3 : (⟨2, T, 2, some t2, .opened⟩ : CircuitBreaker).call t3 op3
      = (⟨2, T, 2, some t2, .opened⟩, CallResult.serviceUnavailable, false) := by
    simp [CircuitBreaker.call, CircuitBreaker.state, CircuitBreaker.stateStep, hc3]
  have e4 : (⟨2, T, 2, some t2, .opened⟩ : CircuitBreaker).state t4
      = (⟨2, T, 2, some t2, .halfOpen⟩, CircuitState.halfOpen) := by
    simp [CircuitBreaker.state, CircuitBreaker.stateStep, hc4]
  have e5 : (⟨2, T, 2, some t2, .opened⟩ : CircuitBreaker).call t4 (.ok v)
      = (⟨2, T, 0, some t2, .closed⟩, CallResult.ok v, true) := by
    simp [CircuitBreaker.call, CircuitBreaker.state, CircuitBreaker.stateStep,
      CircuitBreaker.onSuccess, hc4]
  exact ⟨by rw [e0], by rw [f1], by rw [f1], by rw [f2], by rw [f2, e3],
    by rw [f2, e4], by rw [f2, e5], by rw [f2, e5], by rw [f2, e5]⟩

/-- C1 witness: the scenario at `T = 10`, failures at instants 1 and 2, a
blocked call at 3, recovery read and successful call at 12. -/
theorem circuit_breaker_lifecycle_witness :
    (CircuitBreaker.init (some 2) (some 10)).stateVar = CircuitState.closed
    ∧ (cbS1 10 1).stateVar = CircuitState.closed
    ∧ (cbS1 10 1).failureCount = 1
    ∧ (cbS2 10 1 2).stateVar = CircuitState.opened
    ∧ (cbS2 10 1 2).call 3 (.error ()) = (cbS2 10 1 2, CallResult.serviceUnavailable, false)
    ∧ ((cbS2 10 1 2).state 12).2 = CircuitState.halfOpen
    ∧ ((cbS2 10 1 2).call 12 (.ok (.int 5))).1.stateVar = CircuitState.closed
    ∧ ((cbS2 10 1 2).call 12 (.ok (.int 5))).1.failureCount = 0
    ∧ ((cbS2 10 1 2).call 12 (.ok (.int 5))).2 = (CallResult.ok (.int 5), true) :=
  circuit_breaker_lifecycle 10 1 2 3 12 (.error ()) (.int 5)
    (by decide) (by decide) (by decide) (by decide)

/-- C10: passing `0` for the numeric configuration parameters substitutes the
configured default (Python truthiness fallback, not an is-None check):
`CacheManager.set` with `ttl=0` stores the entry with `config.CACHE_TTL` (so
it expires an hour later, not immediately), `CircuitBreaker(failure_threshold=0)`
uses `config.CIRCUIT_BREAKER_THRESHOLD`, and `RateLimiter(max_requests=0)`
uses `config.RATE_LIMIT_REQUESTS`. -/
theorem zero_params_fall_back_to_config_defaults (fs : CacheFS String)
    (key : String) (v : PyVal) (t1 t2 : Int) :
    ((CacheManager.set fs key v (some 0) t1 t2).2.ttl = config.CACHE_TTL
      ∧ (CacheManager.set fs key v (some 0) t1 t2).2.expires = t2 + config.CACHE_TTL)
    ∧ (CircuitBreaker.init (some 0) Option.none).failure_threshold
        = config.CIRCUIT_BREAKER_THRESHOLD
    ∧ (RateLimiter.init (some 0) Option.none).max_requests
        = config.RATE_LIMIT_REQUESTS :=
  ⟨⟨rfl, rfl⟩, rfl, rfl⟩

/-- C5: an operation that raises on every attempt, wrapped with
`retry(max_attempts=3, delay, backoff)`, is invoked exactly 3 times, sleeps
`delay` then `delay * backoff` after the two non-final failures, and the
exception finally re-raised is the one raised by the last attempt. -/
theorem retry_exhaustion_three_attempts {ε α : Type} (es : Nat → ε) (d b : ℚ) :
    retry (fun i => (Except.error (es i) : Except ε α)) 3 d b
      = ⟨3, [d, d * b], Except.error (some (es 2))⟩ := rfl

/-- C7 counterexample: `CacheManager.set` reads the clock twice while building
the metadata; on a run where the clock advances by one second between the
`created` and `expires` reads (with `ttl=10`), the stored metadata violates
`expires == created + ttl`. -/
theorem cache_set_invariant_counterexample :
    ¬ ((CacheManager.set (CacheFS.empty (κ := String)) "k" (.int 1) (some 10) 0 1).2.expires
        = (CacheManager.set (CacheFS.empty (κ := String)) "k" (.int 1) (some 10) 0 1).2.created
          + (CacheManager.set (CacheFS.empty (κ := String)) "k" (.int 1) (some 10) 0 1).2.ttl) := by
  decide

/-- C7 amended: for every entry written by `set(key, value, ttl)` with
`ttl ≠ 0`, the metadata has `created` equal to the first clock reading,
`ttl` as given, and `expires` equal to the second clock reading plus `ttl`;
under a monotone clock `expires ≥ created + ttl`, with equality exactly when
the two clock readings coincide. -/
theorem cache_set_expiry_metadata (fs : CacheFS String) (key : String)
    (v : PyVal) (ttl t1 t2 : Int) (httl : ttl ≠ 0) (hmono : t1 ≤ t2) :
    (CacheManager.set fs key v (some ttl) t1 t2).2.created = t1
    ∧ (CacheManager.set fs key v (some ttl) t1 t2).2.ttl = ttl
    ∧ (CacheManager.set fs key v (some ttl) t1 t2).2.expires = t2 + ttl
    ∧ (CacheManager.set fs key v (some ttl) t1 t2).2.created
        + (CacheManager.set fs key v (some ttl) t1 t2).2.ttl
        ≤ (CacheManager.set fs key v (some ttl) t1 t2).2.expires
    ∧ (t1 = t2 →
        (CacheManager.set fs key v (some ttl) t1 t2).2.expires
          = (CacheManager.set fs key v (some ttl) t1 t2).2.created
            + (CacheManager.set fs key v (some ttl) t1 t2).2.ttl) := by
  have hpy : pyOrInt (some ttl) config.CACHE_TTL = ttl := if_neg httl
  simp [CacheManager.set, hpy]
  omega

/-- C7 witness: the amended statement at `ttl = 10` and coinciding clock
readings `t1 = t2 = 5`. -/
theorem cache_set_expiry_metadata_witness :
    (CacheManager.set (CacheFS.empty (κ := String)) "k" (.int 1) (some 10) 5 5).2.created = 5
    ∧ (CacheManager.set (CacheFS.empty (κ := String)) "k" (.int 1) (some 10) 5 5).2.ttl = 10
    ∧ (CacheManager.set (CacheFS.empty (κ := String)) "k" (.int 1) (some 10) 5 5).2.expires = 5 + 10
    ∧ (CacheManager.set (CacheFS.empty (κ := String)) "k" (.int 1) (some 10) 5 5).2.created
        + (CacheManager.set (CacheFS.empty (κ := String)) "k" (.int 1) (some 10) 5 5).2.ttl
        ≤ (CacheManager.set (CacheFS.empty (κ := String)) "k" (.int 1) (some 10) 5 5).2.expires
    ∧ (CacheManager.set (CacheFS.empty (κ := String)) "k" (.int 1) (some 10) 5 5).2.expires
        = (CacheManager.set (CacheFS.empty (κ := String)) "k" (.int 1) (some 10) 5 5).2.created
          + (CacheManager.set (CacheFS.empty (κ := String)) "k" (.int 1) (some 10) 5 5).2.ttl := by
  have h := cache_set_expiry_metadata (CacheFS.empty) "k" (.int 1) 10 5 5 (by decide) (by decide)
  exact ⟨h.1, h.2.1, h.2.2.1, h.2.2.2.1, h.2.2.2.2 rfl⟩

/-- Sorting by key sends any two permuted keyword-argument lists with
distinct keys to the same list: both sorts are permutations of each other and
sorted, and distinctness of keys upgrades the sort order to a strict
(antisymmetric) one. -/
theorem insertionSort_kvLE_eq_of_perm {α : Type} (l1 l2 : List (String × α))
    (hperm : l1.Perm l2) (hnodup : (l1.map Prod.fst).Nodup) :
    List.insertionSort kvLE l1 = List.insertionSort kvLE l2 := by
  have hp : (List.insertionSort kvLE l1).Perm (List.insertionSort kvLE l2) :=
    (List.perm_insertionSort kvLE l1).trans
      (hperm.trans (List.perm_insertionSort kvLE l2).symm)
  have hs1 := List.sorted_insertionSort kvLE l1
  have hs2 := List.sorted_insertionSort kvLE l2
  have hn1 : ((List.insertionSort kvLE l1).map Prod.fst).Nodup :=
    ((List.perm_insertionSort kvLE l1).map Prod.fst).nodup_iff.mpr hnodup
  have hn2 : ((List.insertionSort kvLE l2).map Prod.fst).Nodup := by
    have h2 : (l2.map Prod.fst).Nodup := ((hperm.map Prod.fst).nodup_iff).mp hnodup
    exact ((List.perm_insertionSort kvLE l2).map Prod.fst).nodup_iff.mpr h2
  have strict : ∀ (l : List (String × α)), List.Sorted kvLE l →
      (l.map Prod.fst).Nodup → List.Sorted kvLT l := by
    intro l hs hn
    have hne : List.Pairwise (fun p q : String × α => p.1 ≠ q.1) l :=
      List.pairwise_map.mp hn
    exact (hs.and hne).imp (fun h => lt_of_le_of_ne h.1 h.2)
  exact List.eq_of_perm_of_sorted hp (strict _ hs1 hn1) (strict _ hs2 hn2)

/-- C6: the function-cache key is invariant under reordering of keyword
arguments: for any two keyword-argument lists that are permutations of each
other (Python kwargs have distinct names), the canonical `key_data`
structures coincide and hence so do the rendered key strings (and their
digests). -/
theorem cache_key_kwarg_order_independent (f : String) (args : List PyVal)
    (kw1 kw2 : List (String × PyVal)) (hperm : kw1.Perm kw2)
    (hnodup : (kw1.map Prod.fst).Nodup) :
    CachedFunction.generate_cache_key f args kw1
        = CachedFunction.generate_cache_key f args kw2
    ∧ keyString (CachedFunction.generate_cache_key f args kw1)
        = keyString (CachedFunction.generate_cache_key f args kw2) := by
  have h1 : CachedFunction.generate_cache_key f args kw1
      = CachedFunction.generate_cache_key f args kw2 := by
    unfold CachedFunction.generate_cache_key
    rw [insertionSort_kvLE_eq_of_perm kw1 kw2 hperm hnodup]
  exact ⟨h1, congrArg keyString h1⟩

/-- C6 witness: the key for `f(a=1, b=2)` equals the key for
`f(b=2, a=1)` (with a `self`-like first positional argument present). -/
theorem cache_key_kwarg_order_independent_witness :
    CachedFunction.generate_cache_key "f" [PyVal.obj "self"]
        [("a", PyVal.int 1), ("b", PyVal.int 2)]
      = CachedFunction.generate_cache_key "f" [PyVal.obj "self"]
        [("b", PyVal.int 2), ("a", PyVal.int 1)]
    ∧ keyString (CachedFunction.generate_cache_key "f" [PyVal.obj "self"]
        [("a", PyVal.int 1), ("b", PyVal.int 2)])
      = keyString (CachedFunction.generate_cache_key "f" [PyVal.obj "self"]
        [("b", PyVal.int 2), ("a", PyVal.int 1)]) :=
  cache_key_kwarg_order_independent "f" [PyVal.obj "self"]
    [("a", PyVal.int 1), ("b", PyVal.int 2)]
    [("b", PyVal.int 2), ("a", PyVal.int 1)]
    (List.Perm.swap ("b", PyVal.int 2) ("a", PyVal.int 1) [])
    (by decide)

/-- C8: `_generate_cache_key` drops the first positional argument (every
Python value passes the `hasattr(x, "__class__")` guard), so the computed key
is independent of that argument: the serialized `args` component records only
the tail, and the full rendered key for `f(x, rest...)` equals the one for
`f(y, rest...)` for any two values `x`, `y`. -/
theorem cache_key_ignores_first_positional_arg (f : String) (x y : PyVal)
    (rest : List PyVal) (kwargs : List (String × PyVal)) :
    (CachedFunction.generate_cache_key f (x :: rest) kwargs).args
        = PyVal.serializeList rest
    ∧ keyString (CachedFunction.generate_cache_key f (x :: rest) kwargs)
        = keyString (CachedFunction.generate_cache_key f (y :: rest) kwargs) :=
  ⟨rfl, rfl⟩

/-- C4: `get` returns the stored value when the entry is present, readable
and `now ≤ expires`; an expired entry is deleted and absent (`None`) is
returned; and every unexpected read failure (missing or unreadable files) is
swallowed, returning absent — the embedding's `get` is a total function, so
no exception ever reaches the caller. -/
theorem cache_get_contract (fs : CacheFS String) (key : String) (now : Int) :
    (∀ (v : PyVal) (m : Metadata), fs.data key = .good v → fs.meta key = .good m →
        now ≤ m.expires → CacheManager.get fs key now = (fs, v))
    ∧ (∀ m : Metadata, fs.meta key = .good m → m.expires < now →
        fs.data key ≠ .missing →
        CacheManager.get fs key now = (CacheManager.delete fs key, PyVal.none))
    ∧ ((fs.data key = .corrupt ∨ fs.meta key = .corrupt) →
        (CacheManager.get fs key now).2 = PyVal.none)
    ∧ ((fs.data key = .missing ∨ fs.meta key = .missing) →
        CacheManager.get fs key now = (fs, PyVal.none)) := by
  refine ⟨?_, ?_, ?_, ?_⟩
  · intro v m hdv hmm hnow
    have hlt : ¬ (now > m.expires) := not_lt.mpr hnow
    simp [CacheManager.get, hdv, hmm, hlt]
  · intro m hmm hexp hdm
    cases hd : fs.data key with
    | missing => exact absurd hd hdm
    | corrupt => simp [CacheManager.get, hd, hmm, hexp]
    | good v => simp [CacheManager.get, hd, hmm, hexp]
  · intro hcor
    rcases hcor with hd | hm
    · cases hm : fs.meta key with
      | missing => simp [CacheManager.get, hd, hm]
      | corrupt => simp [CacheManager.get, hd, hm]
      | good m =>
          simp only [CacheManager.get, hd, hm]
          split <;> rfl
    · cases hd : fs.data key with
      | missing => simp [CacheManager.get, hd, hm]
      | corrupt => simp [CacheManager.get, hd, hm]
      | good v => simp [CacheManager.get, hd, hm]
  · intro hmis
    rcases hmis with hd | hm
    · simp [CacheManager.get, hd]
    · cases hd : fs.data key with
      | missing => simp [CacheManager.get, hd, hm]
      | corrupt => simp [CacheManager.get, hd, hm]
      | good v => simp [CacheManager.get, hd, hm]

/-- Cache directory exercising the four branches of the `get` contract:
a fresh readable entry, an expired entry, an unreadable payload, and an
absent key (all metadata has `expires = 10`). -/
def fs0 : CacheFS String :=
  { data := fun k =>
      if k = "fresh" then .good (.int 42)
      else if k = "stale" then .good (.int 7)
      else if k = "bad" then .corrupt
      else .missing
    meta := fun k =>
      if k = "missing" then .missing
      else .good ⟨0, 10, 10⟩ }

/-- C4 witness: the contract applied to `fs0` at each of its four keys. -/
theorem cache_get_contract_witness :
    CacheManager.get fs0 "fresh" 5 = (fs0, PyVal.int 42)
    ∧ CacheManager.get fs0 "stale" 11 = (CacheManager.delete fs0 "stale", PyVal.none)
    ∧ (CacheManager.get fs0 "bad" 5).2 = PyVal.none
    ∧ CacheManager.get fs0 "absent" 5 = (fs0, PyVal.none) :=
  ⟨(cache_get_contract fs0 "fresh" 5).1 (.int 42) ⟨0, 10, 10⟩ rfl rfl (by decide),
   (cache_get_contract fs0 "stale" 11).2.1 ⟨0, 10, 10⟩ rfl (by decide)
     (fun h => FileState.noConfusion h),
   (cache_get_contract fs0 "bad" 5).2.2.1 (Or.inl rfl),
   (cache_get_contract fs0 "absent" 5).2.2.2 (Or.inl rfl)⟩

/-- C9: a stored `None` is indistinguishable from a miss: after
`set(k, None, ttl)`, `get(k)` returns `None` and `exists(k)` is false; a
decorator call whose returned value is `None` always invoked the wrapped
function (a hit is necessarily non-`None`), and after a call that computed
and stored `None`, an identical later call invokes the function again. -/
theorem stored_none_is_a_miss (fs : CacheFS String) (key : String)
    (ttl : Option Int) (t1 t2 now now2 t3 t4 : Int) (f : String)
    (args : List PyVal) (kwargs : List (String × PyVal)) (r : PyVal) :
    (CacheManager.get (CacheManager.set fs key PyVal.none ttl t1 t2).1 key now).2 = PyVal.none
    ∧ (CacheManager.exists (CacheManager.set fs key PyVal.none ttl t1 t2).1 key now).2 = false
    ∧ ((CachedFunction.callWrapper fs ttl f args kwargs r now t1 t2).2.1 = PyVal.none →
        (CachedFunction.callWrapper fs ttl f args kwargs r now t1 t2).2.2 = true)
    ∧ ((CachedFunction.callWrapper fs ttl f args kwargs PyVal.none now t1 t2).2.2 = true →
        (CachedFunction.callWrapper
            (CachedFunction.callWrapper fs ttl f args kwargs PyVal.none now t1 t2).1
            ttl f args kwargs PyVal.none now2 t3 t4).2.2 = true) := by
  have hA : ∀ (gs : CacheFS String) (k : String) (tt : Option Int) (u1 u2 nn : Int),
      (CacheManager.get (CacheManager.set gs k PyVal.none tt u1 u2).1 k nn).2 = PyVal.none := by
    intro gs k tt u1 u2 nn
    have hd : (CacheManager.set gs k PyVal.none tt u1 u2).1.data k = .good PyVal.none := by
      simp [CacheManager.set]
    have hm : (CacheManager.set gs k PyVal.none tt u1 u2).1.meta k
        = .good ⟨u1, pyOrInt tt config.CACHE_TTL,
            u2 + pyOrInt tt config.CACHE_TTL⟩ := by
      simp [CacheManager.set]
    simp only [CacheManager.get, hd, hm]
    split <;> rfl
  refine ⟨hA fs key ttl t1 t2 now, ?_, ?_, ?_⟩
  · simp [CacheManager.exists, hA fs key ttl t1 t2 now, PyVal.isNone]
  · intro hres
    by_cases hc :
        (CacheManager.get fs
          (keyString (CachedFunction.generate_cache_key f args kwargs)) now).2.isNone = true
    · simp [CachedFunction.callWrapper, hc]
    · exfalso
      simp [CachedFunction.callWrapper, hc] at hres
      rw [hres] at hc
      exact hc rfl
  · intro hinv
    by_cases hc :
        (CacheManager.get fs
          (keyString (CachedFunction.generate_cache_key f args kwargs)) now).2.isNone = true
    · have hfs1 : (CachedFunction.callWrapper fs ttl f args kwargs PyVal.none now t1 t2).1
          = (CacheManager.set
              (CacheManager.get fs
                (keyString (CachedFunction.generate_cache_key f args kwargs)) now).1
              (keyString (CachedFunction.generate_cache_key f args kwargs)) PyVal.none
              (some (pyOrInt ttl config.CACHE_TTL)) t1 t2).1 := by
        simp [CachedFunction.callWrapper, hc]
      rw [hfs1]
      simp [CachedFunction.callWrapper, hA, PyVal.isNone]
    · exfalso
      simp [CachedFunction.callWrapper, hc] at hinv

/-- C9 witness: the scenario on an empty cache directory at `ttl = 60`:
storing `None` yields a `get` miss and `exists = false`, and two successive
decorator calls computing `None` both invoke the wrapped function. -/
theorem stored_none_is_a_miss_witness :
    (CacheManager.get
        (CacheManager.set CacheFS.empty "k" PyVal.none (some 60) 0 0).1 "k" 1).2 = PyVal.none
    ∧ (CacheManager.exists
        (CacheManager.set CacheFS.empty "k" PyVal.none (some 60) 0 0).1 "k" 1).2 = false
    ∧ (CachedFunction.callWrapper CacheFS.empty (some 60) "f" [] [] PyVal.none 1 0 0).2.2 = true
    ∧ (CachedFunction.callWrapper
        (CachedFunction.callWrapper CacheFS.empty (some 60) "f" [] [] PyVal.none 1 0 0).1
        (some 60) "f" [] [] PyVal.none 2 0 0).2.2 = true := by
  have h := stored_none_is_a_miss CacheFS.empty "k" (some 60) 0 0 1 2 0 0 "f" [] [] PyVal.none
  exact ⟨h.1, h.2.1, h.2.2.1 rfl, h.2.2.2 rfl⟩

/-- C2: the claim (and the repository's own
`test_error_rate_calculation`) expect 8 successful plus 2 failing
`record_api_call`s to give `error_rate == 0.2`; but the `api_errors`
increment sits inside the Prometheus-gated block, so with the default
configuration (`ENABLE_METRICS=false`, or `prometheus_client` absent) the
code leaves `api_errors` at 0 and reports `error_rate = 0`.  Only with the
gate enabled does the rate come out as `1/5`; resetting does zero all
counters, and the rate of a fresh collector is 0. -/
theorem metrics_error_rate_divergence :
    ((MetricsData.reset.recordApiCalls false Option.none 8).recordApiCalls
        false (some "error") 2).error_rate = 0
    ∧ ((MetricsData.reset.recordApiCalls true Option.none 8).recordApiCalls
        true (some "error") 2).error_rate = 1/5
    ∧ MetricsData.reset.api_calls = 0 ∧ MetricsData.reset.api_errors = 0
    ∧ MetricsData.reset.cache_hits = 0 ∧ MetricsData.reset.cache_misses = 0
    ∧ MetricsData.reset.total_processing_time = 0
    ∧ MetricsData.reset.error_rate = 0 := by
  have h1 : (MetricsData.reset.recordApiCalls false Option.none 8).recordApiCalls
      false (some "error") 2 = { api_calls := 10 } := by rfl
  have h2 : (MetricsData.reset.recordApiCalls true Option.none 8).recordApiCalls
      true (some "error") 2 = { api_calls := 10, api_errors := 2 } := by rfl
  rw [h1, h2]
  refine ⟨by norm_num [MetricsData.error_rate], by norm_num [MetricsData.error_rate],
    rfl, rfl, rfl, rfl, rfl, by norm_num [MetricsData.error_rate, MetricsData.reset]⟩

